import Mathlib

/-!
Shallow embedding of `alonzo.py`, a minimal Monzo API client, together with
proofs of its specified behaviour.  Python dictionaries are modelled as
association lists with unique keys maintained by `dictInsert` (assignment
semantics: overwrite the existing binding or append a fresh one), dates and
datetimes as a single record (a Python `date` formats with a midnight time
component under `strftime`), and fallible constructors return `Option` /
`Except`.
-/

/-- Python dict lookup `d[k]` / `d.get(k)`: value of the (unique) binding for
`k`, scanning in insertion order. -/
def dictGet {α : Type} (k : String) : List (String × α) → Option α
  | [] => none
  | (k', v) :: rest => if k' = k then some v else dictGet k rest

/-- Python dict assignment `d[k] = v`: overwrite the first binding for `k`,
or append `(k, v)` when `k` is absent. -/
def dictInsert {α : Type} (k : String) (v : α) : List (String × α) → List (String × α)
  | [] => [(k, v)]
  | (k', v') :: rest =>
      if k' = k then (k, v) :: rest else (k', v') :: dictInsert k v rest

/-- Python `d.update(other)`: assign every binding of `other` into `d`, in
order. -/
def dictUpdate {α : Type} (d other : List (String × α)) : List (String × α) :=
  other.foldl (fun acc kv => dictInsert kv.1 kv.2 acc) d

/-- A Python `datetime.datetime` (a `datetime.date` is the special case with a
midnight time component, which is what `strftime` on a date produces for the
`%H`/`%M`/`%S` directives). -/
structure PyDateTime where
  year : Nat
  month : Nat
  day : Nat
  hour : Nat
  minute : Nat
  second : Nat
deriving DecidableEq, Repr

/-- A Python `datetime.date` value, as seen by `strftime`. -/
def mkDate (y m d : Nat) : PyDateTime := ⟨y, m, d, 0, 0, 0⟩

/-- `strftime` zero-padding to width 2 (`%m`, `%d`, `%H`, `%M`, `%S`). -/
def zfill2 (n : Nat) : String :=
  if n < 10 then "0" ++ toString n else toString n

/-- `strftime` zero-padding to width 4 (`%Y` as CPython renders it). -/
def zfill4 (n : Nat) : String :=
  if n < 10 then "000" ++ toString n
  else if n < 100 then "00" ++ toString n
  else if n < 1000 then "0" ++ toString n
  else toString n

/-- `rfc3339_datetime(dt)`: the code's
`dt.strftime` with the fixed pattern year-month-day, a literal `T`,
hour:minute:second and a literal `Z`. -/
def rfc3339_datetime (dt : PyDateTime) : String :=
  zfill4 dt.year ++ "-" ++ zfill2 dt.month ++ "-" ++ zfill2 dt.day ++ "T" ++
    zfill2 dt.hour ++ ":" ++ zfill2 dt.minute ++ ":" ++ zfill2 dt.second ++ "Z"

/-- Gregorian leap-year test, as in Python's `calendar.isleap`. -/
def isLeap (y : Nat) : Bool :=
  (y % 4 == 0 && y % 100 != 0) || y % 400 == 0

/-- Number of days in a Gregorian month. -/
def daysInMonth (y m : Nat) : Nat :=
  if m = 2 then (if isLeap y then 29 else 28)
  else if m = 4 ∨ m = 6 ∨ m = 9 ∨ m = 11 then 30
  else 31

/-- The Gregorian day before a date (time component untouched, as subtracting
a whole-day `timedelta` from a `date` keeps it a `date`). -/
def predDay (dt : PyDateTime) : PyDateTime :=
  if dt.day > 1 then { dt with day := dt.day - 1 }
  else if dt.month > 1 then
    { dt with month := dt.month - 1, day := daysInMonth dt.year (dt.month - 1) }
  else { dt with year := dt.year - 1, month := 12, day := 31 }

/-- `d - timedelta(days=n)` for a Python `date`. -/
def subDays (dt : PyDateTime) : Nat → PyDateTime
  | 0 => dt
  | n + 1 => subDays (predDay dt) n

/-- Decimal digit value of a character, when it is a digit. -/
def digitVal (c : Char) : Option Nat :=
  if c.isDigit then some (c.toNat - 48) else none

/-- Numeric value of a run of decimal digits. -/
def digitsVal : List Char → Option Nat
  | [] => some 0
  | cs => cs.foldlM (fun acc c => (digitVal c).map (fun d => acc * 10 + d)) 0

/-- Models `dateutil.parser.parse`, restricted to the RFC3339 UTC strings
this client actually produces and consumes
(year-month-dayThour:minute:secondZ); any other input is rejected.  The
`tzinfo` carried by the real parser is dropped: no claim observes it. -/
def parse_date (s : String) : Option PyDateTime :=
  match s.toList with
  | [y1, y2, y3, y4, '-', m1, m2, '-', d1, d2, 'T',
     h1, h2, ':', mi1, mi2, ':', s1, s2, 'Z'] => do
      let y ← digitsVal [y1, y2, y3, y4]
      let mo ← digitsVal [m1, m2]
      let d ← digitsVal [d1, d2]
      let h ← digitsVal [h1, h2]
      let mi ← digitsVal [mi1, mi2]
      let se ← digitsVal [s1, s2]
      pure ⟨y, mo, d, h, mi, se⟩
  | _ => none

/-- `User.__init__(user_id, preferred_name, preferred_first_name)`. -/
structure User where
  user_id : String
  preferred_name : String
  preferred_first_name : String
deriving DecidableEq, Repr

/-- `Account.__init__`: the six attributes stored on an account. -/
structure Account where
  id : String
  description : String
  created : PyDateTime
  account_type : String
  is_active : Bool
  owners : List User
deriving DecidableEq, Repr

/-- One element of the `owners` list of an `accounts` API response; `User(**u)`
requires exactly these three keys. -/
structure UserResp where
  user_id : String
  preferred_name : String
  preferred_first_name : String
deriving DecidableEq, Repr

/-- An element of the `accounts` list of an API response, with the fields
`Account._new_from_api_response` reads. -/
structure AccountResp where
  id : String
  description : String
  created : String
  type : String
  closed : Bool
  owners : List UserResp
deriving DecidableEq, Repr

/-- `Account._new_from_api_response(resp)`: build an `Account`, parsing
`created` with `parse_date`, deriving the active flag as `not resp['closed']`
and the owners as `User(**u)` for each owner dict.  `none` models the
exception `parse_date` raises on an unparseable string. -/
def Account.new_from_api_response (resp : AccountResp) : Option Account :=
  (parse_date resp.created).map fun c =>
    { id := resp.id
      description := resp.description
      created := c
      account_type := resp.type
      is_active := !resp.closed
      owners := resp.owners.map fun u =>
        ⟨u.user_id, u.preferred_name, u.preferred_first_name⟩ }

/-- A JSON scalar/value as it lands in a decoded response dict.  Transactions
carry an open-ended mapping of these. -/
inductive JVal where
  | str (s : String)
  | int (n : Int)
  | bool (b : Bool)
  | null
deriving DecidableEq, Repr

/-- The distinguishable exceptions `Transaction.__init__` can raise:
`api_resp['created']` on a missing key (`KeyError`), `parse_date` on a
non-string (`TypeError`) or on an unparseable string (`ValueError`). -/
inductive TxError where
  | keyError
  | typeError
  | valueError
deriving DecidableEq, Repr

/-- A `Transaction`: `self.__dict__.update(api_resp)` copies every response
field wholesale onto the object, then `self.created` is overwritten with the
parsed datetime.  `fields` is the copied response; the shadowed raw `created`
binding is resolved by `Transaction.getattr`. -/
structure Transaction where
  fields : List (String × JVal)
  created : PyDateTime
deriving DecidableEq, Repr

/-- `Transaction.__init__(api_resp)`. -/
def Transaction.init (api_resp : List (String × JVal)) : Except TxError Transaction :=
  match dictGet "created" api_resp with
  | none => Except.error TxError.keyError
  | some (JVal.str s) =>
      match parse_date s with
      | some d => Except.ok ⟨api_resp, d⟩
      | none => Except.error TxError.valueError
  | some _ => Except.error TxError.typeError

/-- Attribute access on a `Transaction`: `created` is the parsed datetime
(the raw string having been overwritten); every other attribute is the copied
response field.  `none` models `AttributeError`. -/
def Transaction.getattr (t : Transaction) (k : String) : Option (PyDateTime ⊕ JVal) :=
  if k = "created" then some (Sum.inl t.created)
  else (dictGet k t.fields).map Sum.inr

/-- The amount component `self.amount / 100` of `Transaction.__repr__`.
Python's `/` is float division; for the amounts at issue the quotient is
exactly representable, so it is modelled as an exact rational. -/
def Transaction.repr_amount (t : Transaction) : Option Rat :=
  match t.getattr "amount" with
  | some (Sum.inr (JVal.int n)) => some ((n : Rat) / 100)
  | _ => none

/-- The headers `MonzoClient._query` passes to `req_func`: build
`_headers = {"Authorization": "Bearer " + token}`, default a `None` caller
mapping to a fresh empty dict, then `headers.update(_headers)` — the caller's
entries are in place first and the authorization entry is assigned last. -/
def MonzoClient.query_headers (token : String)
    (headers : Option (List (String × String))) : List (String × String) :=
  let auth_headers := [("Authorization", "Bearer " ++ token)]
  let headers := match headers with
    | none => []
    | some h => h
  dictUpdate headers auth_headers

/-- The caller's headers mapping after `MonzoClient._query` returns.
`headers.update(_headers)` mutates the caller-supplied dict in place (no copy
is taken), so when the caller passed a mapping it now holds exactly the
headers that were sent; when the caller passed `None` a fresh dict was used
and the caller holds nothing. -/
def MonzoClient.caller_headers_after (token : String)
    (headers : Option (List (String × String))) : Option (List (String × String)) :=
  match headers with
  | none => none
  | some h => some (MonzoClient.query_headers token (some h))

/-- `MonzoClient._get_default_account_id`: scan the accounts returned by
`list_accounts()` in order and return the id of the first one with
`is_active`; falling off the loop returns Python's implicit `None`. -/
def MonzoClient.get_default_account_id : List Account → Option String
  | [] => none
  | account :: rest =>
      if account.is_active then some account.id
      else MonzoClient.get_default_account_id rest

/-- `MonzoClient._populate_time_params(params, since, before)`: default
`since` to `date.today() - timedelta(days=7)`, store its RFC3339 form under
`'since'`, and store `before` under `'before'` only when it was supplied.
`today` stands for the invocation-time `date.today()`. -/
def MonzoClient.populate_time_params (today : PyDateTime)
    (params : List (String × Option String)) (since before : Option PyDateTime) :
    List (String × Option String) :=
  let since := match since with
    | none => subDays today 7
    | some s => s
  let params := dictInsert "since" (some (rfc3339_datetime since)) params
  match before with
  | none => params
  | some b => dictInsert "before" (some (rfc3339_datetime b)) params

/-- The `params` dict `MonzoClient.get_balance(account_id)` builds:
`account_id` defaults through `_get_default_account_id()` and is stored under
`'account_id'` (possibly as Python `None`, modelled as the `none` value).
`accounts` stands for the server's `list_accounts()` response. -/
def MonzoClient.get_balance_params (accounts : List Account)
    (account_id : Option String) : List (String × Option String) :=
  let account_id := match account_id with
    | none => MonzoClient.get_default_account_id accounts
    | some a => some a
  [("account_id", account_id)]

/-- The `params` dict `MonzoClient.list_transactions` builds: resolve the
account id the same way, then add the time-window parameters unless `full`
is set. -/
def MonzoClient.list_transactions_params (today : PyDateTime)
    (accounts : List Account) (account_id : Option String)
    (since before : Option PyDateTime) (full : Bool) :
    List (String × Option String) :=
  let account_id := match account_id with
    | none => MonzoClient.get_default_account_id accounts
    | some a => some a
  let params := [("account_id", account_id)]
  if full then params
  else MonzoClient.populate_time_params today params since before

/-- The query string actually issued for a params dict: the `requests`
library omits every parameter whose value is `None`, so a `none` value never
reaches the wire. -/
def sent_params (params : List (String × Option String)) : List (String × String) :=
  params.filterMap fun kv => kv.2.map fun v => (kv.1, v)

/-- A closed account, for concrete instantiations. -/
def accClosed : Account :=
  ⟨"acc_0", "Old", mkDate 2019 1 1, "uk_retail", false, []⟩

/-- An open account, for concrete instantiations. -/
def accOpen : Account :=
  ⟨"acc_1", "Current", mkDate 2020 1 1, "uk_retail", true, []⟩

/-- The spec's sample `accounts` response object. -/
def sampleAccountResp : AccountResp :=
  ⟨"acc_1", "Current", "2020-01-01T00:00:00Z", "uk_retail", false,
   [⟨"u1", "Ada", "Ada"⟩]⟩

/-- A sample transaction response dict with an `amount` of `-250` minor units
of GBP. -/
def sampleTx : List (String × JVal) :=
  [("id", JVal.str "tx_1"), ("description", JVal.str "Coffee"),
   ("amount", JVal.int (-250)), ("currency", JVal.str "GBP"),
   ("created", JVal.str "2020-01-02T03:04:05Z")]

/-- The `Transaction` that `Transaction.init sampleTx` constructs. -/
def sampleTxObj : Transaction :=
  ⟨sampleTx, ⟨2020, 1, 2, 3, 4, 5⟩⟩

theorem dictGet_dictInsert_self {α : Type} (k : String) (v : α) :
    ∀ d : List (String × α), dictGet k (dictInsert k v d) = some v := by
  intro d
  induction d with
  | nil => simp [dictInsert, dictGet]
  | cons hd tl ih =>
      by_cases h : hd.1 = k
      · simp [dictInsert, dictGet, h]
      · simpa [dictInsert, dictGet, h] using ih

theorem dictGet_dictInsert_ne {α : Type} (k k' : String) (v : α) (hk : k' ≠ k) :
    ∀ d : List (String × α), dictGet k (dictInsert k' v d) = dictGet k d := by
  intro d
  induction d with
  | nil => simp [dictInsert, dictGet, hk]
  | cons hd tl ih =>
      by_cases h : hd.1 = k'
      · by_cases h2 : hd.1 = k
        · exact absurd (h ▸ h2) hk
        · simp [dictInsert, dictGet, h, h2, hk]
      · by_cases h2 : hd.1 = k
        · simp [dictInsert, dictGet, h, h2, Ne.symm hk]
        · simpa [dictInsert, dictGet, h, h2] using ih

theorem query_headers_auth (token : String)
    (headers : Option (List (String × String))) :
    dictGet "Authorization" (MonzoClient.query_headers token headers) =
      some ("Bearer " ++ token) := by
  cases headers with
  | none => rfl
  | some h =>
      simpa [MonzoClient.query_headers, dictUpdate] using
        dictGet_dictInsert_self "Authorization" ("Bearer " ++ token) h

/-- C1: for every token and every caller-supplied headers mapping — including
one that already binds `Authorization` — the headers `_query` sends contain
the entry `Authorization: Bearer <token>`; the authorization header wins any
key collision because it is assigned after the caller's headers. -/
theorem spec_C1 (token : String) (headers : Option (List (String × String))) :
    dictGet "Authorization" (MonzoClient.query_headers token headers) =
      some ("Bearer " ++ token) :=
  query_headers_auth token headers

/-- C9: when the caller supplies a headers mapping, `_query` mutates it in
place: afterwards the caller's own dict is exactly the mapping that was sent,
and in particular now contains the `Authorization` entry. -/
theorem spec_C9 (token : String) (d : List (String × String)) :
    MonzoClient.caller_headers_after token (some d) =
      some (MonzoClient.query_headers token (some d))
    ∧ (MonzoClient.caller_headers_after token (some d)).map
        (dictGet "Authorization") = some (some ("Bearer " ++ token)) := by
  refine ⟨rfl, ?_⟩
  simp [MonzoClient.caller_headers_after, query_headers_auth]

/-- C4: `rfc3339_datetime` on the literal date 2020-01-15 yields exactly
`"2020-01-15T00:00:00Z"` — a midnight time component and a literal `Z`. -/
theorem spec_C4 : rfc3339_datetime (mkDate 2020 1 15) = "2020-01-15T00:00:00Z" := by
  decide

/-- C5: with `full = true`, `list_transactions` builds query parameters with
neither a `since` nor a `before` key: only `account_id` is present. -/
theorem spec_C5 (today : PyDateTime) (accounts : List Account)
    (account_id : Option String) (since before : Option PyDateTime) :
    dictGet "since" (MonzoClient.list_transactions_params today accounts
        account_id since before true) = none
    ∧ dictGet "before" (MonzoClient.list_transactions_params today accounts
        account_id since before true) = none
    ∧ (MonzoClient.list_transactions_params today accounts account_id since
        before true).map Prod.fst = ["account_id"] :=
  ⟨rfl, rfl, rfl⟩

/-- C6: with `full = false`, the `since` parameter is present and equals the
RFC3339 form of the supplied `since` — defaulting to the invocation-time
`today` minus 7 days — and a `before` parameter is present, RFC3339-formatted,
exactly when `before` was supplied. -/
theorem spec_C6 (today : PyDateTime) (accounts : List Account)
    (account_id : Option String) (since before : Option PyDateTime) :
    dictGet "since" (MonzoClient.list_transactions_params today accounts
        account_id since before false) =
      some (some (rfc3339_datetime (since.getD (subDays today 7))))
    ∧ dictGet "before" (MonzoClient.list_transactions_params today accounts
        account_id since before false) =
      before.map (fun b => some (rfc3339_datetime b)) := by
  cases since <;> cases before <;>
    simp [MonzoClient.list_transactions_params, MonzoClient.populate_time_params,
      dictInsert, dictGet]

theorem get_default_first_active (pre post : List Account) (a : Account)
    (hpre : ∀ b ∈ pre, b.is_active = false) (ha : a.is_active = true) :
    MonzoClient.get_default_account_id (pre ++ a :: post) = some a.id := by
  induction pre with
  | nil => simp [MonzoClient.get_default_account_id, ha]
  | cons b tl ih =>
      have hb := hpre b (List.mem_cons_self b tl)
      simpa [MonzoClient.get_default_account_id, hb] using
        ih fun x hx => hpre x (List.mem_cons_of_mem b hx)

theorem get_default_none (accounts : List Account)
    (h : ∀ b ∈ accounts, b.is_active = false) :
    MonzoClient.get_default_account_id accounts = none := by
  induction accounts with
  | nil => rfl
  | cons b tl ih =>
      have hb := h b (List.mem_cons_self b tl)
      simpa [MonzoClient.get_default_account_id, hb] using
        ih fun x hx => h x (List.mem_cons_of_mem b hx)

/-- C2: when at least one listed account is active, default-account resolution
returns the id of the first active account in server order, and
`get_balance()` without an explicit account id sends exactly that id as its
`account_id` parameter. -/
theorem spec_C2 (pre post : List Account) (a : Account)
    (hpre : ∀ b ∈ pre, b.is_active = false) (ha : a.is_active = true) :
    MonzoClient.get_default_account_id (pre ++ a :: post) = some a.id
    ∧ sent_params (MonzoClient.get_balance_params (pre ++ a :: post) none) =
        [("account_id", a.id)] := by
  have h := get_default_first_active pre post a hpre ha
  exact ⟨h, by simp [MonzoClient.get_balance_params, sent_params, h]⟩

/-- Witness for C2 at a concrete two-account list. -/
theorem spec_C2_witness :
    MonzoClient.get_default_account_id [accClosed, accOpen] = some "acc_1"
    ∧ sent_params (MonzoClient.get_balance_params [accClosed, accOpen] none) =
        [("account_id", "acc_1")] :=
  spec_C2 [accClosed] [] accOpen
    (fun b hb => by
      simp only [List.mem_singleton] at hb
      subst hb
      rfl)
    rfl

/-- C3: when every listed account is closed, default-account resolution
yields no identifier without raising, and the dependent request is issued
with the `account_id` parameter absent (the `requests` layer drops the
`None`-valued entry). -/
theorem spec_C3 (accounts : List Account)
    (h : ∀ b ∈ accounts, b.is_active = false) :
    MonzoClient.get_default_account_id accounts = none
    ∧ sent_params (MonzoClient.get_balance_params accounts none) = [] := by
  have hd := get_default_none accounts h
  exact ⟨hd, by simp [MonzoClient.get_balance_params, sent_params, hd]⟩

/-- Witness for C3 at a concrete all-closed list. -/
theorem spec_C3_witness :
    MonzoClient.get_default_account_id [accClosed] = none
    ∧ sent_params (MonzoClient.get_balance_params [accClosed] none) = [] :=
  spec_C3 [accClosed]
    (fun b hb => by
      simp only [List.mem_singleton] at hb
      subst hb
      rfl)

/-- C7: the spec's sample accounts-response object constructs an `Account`
whose active flag is true (inverse of `closed`), whose single owner has
preferred name `"Ada"`, and whose `created` field is the parsed datetime
2020-01-01 rather than the raw ISO-8601 string. -/
theorem spec_C7 :
    (Account.new_from_api_response sampleAccountResp).map
        (fun a => (a.is_active, a.owners.map User.preferred_name, a.created)) =
      some (true, ["Ada"], mkDate 2020 1 1) := by
  decide

theorem Transaction.init_ok_spec (resp : List (String × JVal)) (t : Transaction)
    (h : Transaction.init resp = Except.ok t) :
    t.fields = resp
    ∧ ∀ s, dictGet "created" resp = some (JVal.str s) →
        parse_date s = some t.created := by
  unfold Transaction.init at h
  split at h
  · exact absurd h (by simp)
  next s hc =>
    split at h
    next d hp =>
      cases h
      refine ⟨rfl, ?_⟩
      intro s2 hs2
      rw [hc] at hs2
      cases hs2
      exact hp
    · exact absurd h (by simp)
  · exact absurd h (by simp)

/-- C8: any `Transaction` built from a response dict whose `amount` is `-250`
and whose currency is GBP stores the amount unconverted (still `-250` minor
units), while the repr's amount component divides by 100 for display only. -/
theorem spec_C8 (resp : List (String × JVal))
    (hamount : dictGet "amount" resp = some (JVal.int (-250)))
    (_hcurrency : dictGet "currency" resp = some (JVal.str "GBP"))
    (t : Transaction) (ht : Transaction.init resp = Except.ok t) :
    t.getattr "amount" = some (Sum.inr (JVal.int (-250)))
    ∧ t.repr_amount = some ((-250 : Rat) / 100) := by
  have hf := (Transaction.init_ok_spec resp t ht).1
  constructor
  · simp [Transaction.getattr, hf, hamount]
  · simp [Transaction.repr_amount, Transaction.getattr, hf, hamount]

/-- Witness for C8 at the sample transaction. -/
theorem spec_C8_witness :
    Transaction.getattr sampleTxObj "amount" = some (Sum.inr (JVal.int (-250)))
    ∧ Transaction.repr_amount sampleTxObj = some ((-250 : Rat) / 100) :=
  spec_C8 sampleTx (by decide) (by decide) sampleTxObj (by rfl)

/-- C10: building a `Transaction` from a mapping without a `created` key
fails with a `KeyError`; for any mapping with a parseable `created`, every
field is copied wholesale onto the object and the `created` attribute is then
overwritten with the parsed datetime, so the raw string is never observable
on that attribute. -/
theorem spec_C10 (resp : List (String × JVal)) :
    (dictGet "created" resp = none →
      Transaction.init resp = Except.error TxError.keyError)
    ∧ ∀ t, Transaction.init resp = Except.ok t →
        t.fields = resp
        ∧ t.getattr "created" = some (Sum.inl t.created)
        ∧ (∀ s, dictGet "created" resp = some (JVal.str s) →
            parse_date s = some t.created)
        ∧ ∀ k, k ≠ "created" → t.getattr k = (dictGet k resp).map Sum.inr := by
  constructor
  · intro hmiss
    unfold Transaction.init
    rw [hmiss]
  · intro t ht
    obtain ⟨hf, hcr⟩ := Transaction.init_ok_spec resp t ht
    refine ⟨hf, by simp [Transaction.getattr], hcr, ?_⟩
    intro k hk
    simp [Transaction.getattr, hk, hf]

/-- Witness for C10: a mapping with no `created` key fails with a
`KeyError`, and at the sample transaction the copied field and the parsed
`created` attribute are observable. -/
theorem spec_C10_witness :
    Transaction.init [("amount", JVal.int 5)] = Except.error TxError.keyError
    ∧ Transaction.getattr sampleTxObj "amount" =
        (dictGet "amount" sampleTx).map Sum.inr
    ∧ parse_date "2020-01-02T03:04:05Z" = some sampleTxObj.created :=
  ⟨(spec_C10 [("amount", JVal.int 5)]).1 (by rfl),
   ((spec_C10 sampleTx).2 sampleTxObj (by rfl)).2.2.2 "amount" (by decide),
   ((spec_C10 sampleTx).2 sampleTxObj (by rfl)).2.2.1 "2020-01-02T03:04:05Z"
     (by decide)⟩
